import Mathlib

/-!
Shallow embedding of the libpqxx connection layer: `src/connection.cxx`
(notice delivery, notification dispatch, `close`, `listen`, transaction
registration, the COPY return-code mapping) and
`include/pqxx/composite.hxx` (composite buffer-size estimate), together
with theorems checking the specification's claims about them.

Conventions of the embedding:
* C++ exceptions become `Except` values or an explicit `exn : Option ConnErr`
  field when a trace of side effects up to the throw matters.
* Callbacks supplied by the user (error handlers, notification receivers and
  handlers) are modelled as pure functions returning an `Outcome`: either
  normal return or throwing a `std::exception` with a `what()` string.
* Transport (libpq) behaviour that the code branches on is passed in
  explicitly: return codes, error messages, row counts of command responses.
-/

namespace Pqxx

/-- The exception kinds thrown by the connection layer (section 7 of the
spec), plus `userException` for an exception escaping from a user-supplied
callback. -/
inductive ConnErr where
  | brokenConnection (msg : String)
  | failure (msg : String)
  | usageError (msg : String)
  | internalError (msg : String)
  | resultCheckFailed (msg : String)
  | conversionError (msg : String)
  | userException (what : String)
deriving DecidableEq, Repr

/-- The `what()` text of an exception. -/
def ConnErr.message : ConnErr → String
  | .brokenConnection m => m
  | .failure m => m
  | .usageError m => m
  | .internalError m => m
  | .resultCheckFailed m => m
  | .conversionError m => m
  | .userException m => m

/-- Whether an error is a `pqxx::failure` (as opposed to e.g.
`internal_error`). -/
def ConnErr.isFailure : ConnErr → Bool
  | .failure _ => true
  | _ => false

/-- A registered `pqxx::errorhandler` (a notice observer).  `call` models
`operator()`: it receives the notice text and returns whether the message
should be passed on to further handlers (`false` = "handled", stop
propagation). -/
structure errorhandler where
  id : Nat
  call : String → Bool

/-- The `pqxx::internal::notice_waiters` state shared between a connection
and its outstanding results: the error handlers in registration order
(`push_back` appends, so the most recently registered one is last), and
whether a free-form notice callback is installed. -/
structure notice_waiters where
  errorhandlers : List errorhandler
  notice_handler : Bool

/-- Observable effects of delivering one notice: the ids of the error
handlers invoked, in invocation order, and the message received by the
free-form notice callback (if it was invoked). -/
structure notice_events where
  invoked : List Nat
  notice_handler_msg : Option String
deriving DecidableEq, Repr

/-- The `for (auto i{rbegin}; (i != rend) and (**i)(msg.data()); ++i);` loop
of `process_notice_raw`, applied to an already-reversed handler list: invoke
each handler and continue only while the handler returns `true`. -/
def run_errorhandlers : List errorhandler → String → List Nat
  | [], _ => []
  | h :: t, msg => h.id :: (if h.call msg then run_errorhandlers t msg else [])

/-- `process_notice_raw` from `connection.cxx`: if the waiters pointer is
non-null and the message non-empty, run the error handlers in reverse
registration order (stopping at the first that returns `false`), then hand
the full message to the notice callback if one is installed.  Both
`pqxx_notice_processor` (the libpq notice processor) and
`connection::process_notice` funnel into this function. -/
def process_notice_raw (w : Option notice_waiters) (msg : String) : notice_events :=
  match w with
  | none => ⟨[], none⟩
  | some w =>
    if msg.isEmpty then ⟨[], none⟩
    else
      ⟨run_errorhandlers w.errorhandlers.reverse msg,
       if w.notice_handler then some msg else none⟩

/-- The delivery order the spec describes: offer the notice to each handler
in the given (most-recently-registered-first) order, stopping at — but
including — the first handler that reports the notice handled. -/
def spec_notice_order (hs : List errorhandler) (msg : String) : List Nat :=
  (hs.takeWhile (fun h => h.call msg)).map errorhandler.id
    ++ ((hs.dropWhile (fun h => h.call msg)).head?.map errorhandler.id).toList

/-- An asynchronous channel notification as drained from the transport
(`PGnotify`): channel name, payload, and the sending backend's pid. -/
structure Notification where
  channel : String
  payload : String
  be_pid : Int
deriving DecidableEq, Repr

/-- What a user callback does when invoked: return normally, or throw a
`std::exception` whose `what()` is the given string. -/
inductive Outcome where
  | ok
  | throwStd (what : String)

/-- A legacy `pqxx::notification_receiver` registered in the `m_receivers`
multimap.  `call` models `operator()`, receiving payload and backend pid. -/
structure notification_receiver where
  id : Nat
  call : String → Int → Outcome

/-- A notification handler registered through `listen` in the
`m_notification_handlers` map.  `call` receives channel, payload and
backend pid (the fields of the `notification` struct it is passed). -/
structure notification_handler where
  id : Nat
  call : String → String → Int → Outcome

/-- Behaviour of `std::format` when `get_notifs` formats the notice about a
throwing receiver: normal, throwing `std::bad_alloc`, or throwing some
other exception.  Models the nested catch blocks. -/
inductive FormatBehavior where
  | ok
  | badAlloc
  | otherExn
deriving DecidableEq, Repr

/-- The notice text produced for an exception escaping a notification
receiver, including the two fallback messages used when formatting the
notice itself throws. -/
def recv_exn_notice (fb : FormatBehavior) (channel what : String) : String :=
  match fb with
  | .ok =>
      "Exception in notification receiver \'" ++ channel ++ "\': " ++ what ++ "\n"
  | .badAlloc =>
      "Exception in notification receiver, and also ran out of memory\n"
  | .otherExn =>
      "Exception in notification receiver (compounded by other error)\n"

/-- A `pqxx::transaction_base` guest, identified by its address (`id` models
pointer identity) and carrying its optional name for diagnostics. -/
structure transaction_base where
  id : Nat
  name : String
deriving DecidableEq, Repr

/-- The `pqxx::connection` state the claims touch, together with the
explicit transport model:
* `m_conn`: whether the transport handle is non-null;
* `m_trans`: the registered-transaction slot;
* `m_receivers`: the legacy channel-to-receiver multimap (sorted by key,
  insertion order within a key);
* `m_notification_handlers`: the sorted channel-to-handler map;
* `m_notice_waiters`: the shared notice hub;
* `buffered`: the transport's queue of not-yet-drained notifications
  (what successive `PQnotifies` calls would yield);
* `consume_ok`: whether `PQconsumeInput` succeeds;
* `format_mode`: behaviour of notice formatting in `get_notifs`;
* `exec_rows`: rows in the server's response to each issued command;
* `close_step_throws`: whether an internal step of `close()` throws. -/
structure connection where
  m_conn : Bool
  m_trans : Option transaction_base
  m_receivers : List (String × notification_receiver)
  m_notification_handlers : List (String × notification_handler)
  m_notice_waiters : Option notice_waiters
  buffered : List Notification
  consume_ok : Bool
  format_mode : FormatBehavior
  exec_rows : String → Nat
  close_step_throws : Bool

/-- The receivers matching one channel: `m_receivers.equal_range(channel)`,
preserving the multimap's order among equal keys. -/
def matching_receivers (rs : List (String × notification_receiver)) (channel : String) :
    List (String × notification_receiver) :=
  rs.filter (fun e => e.1 = channel)

/-- `m_notification_handlers.find(channel)`: exact-key lookup. -/
def find_handler (hs : List (String × notification_handler)) (channel : String) :
    Option notification_handler :=
  (hs.find? (fun e => e.1 = channel)).map Prod.snd

/-- The inner receiver loop of `get_notifs` for one notification: invoke
every matching receiver with the payload and backend pid; an exception from
a receiver is caught and turned into a notice (with the nested fallbacks),
and the loop continues with the next receiver.  Returns the invocations
(receiver id, payload, pid) and the notices produced. -/
def dispatch_receivers (fb : FormatBehavior) (rs : List (String × notification_receiver))
    (payload : String) (pid : Int) : List (Nat × String × Int) × List String :=
  match rs with
  | [] => ([], [])
  | (ch, r) :: rest =>
    let tail := dispatch_receivers fb rest payload pid
    let note :=
      match r.call payload pid with
      | .ok => []
      | .throwStd w => [recv_exn_notice fb ch w]
    ((r.id, payload, pid) :: tail.1, note ++ tail.2)

/-- Cumulative effects of draining buffered notifications. -/
structure drain_out where
  count : Nat
  recv_calls : List (Nat × String × Int)
  handler_calls : List (Nat × String × String × Int)
  notices : List String
  exn : Option ConnErr
  remaining : List Notification

/-- The `for (auto N{get_notif(m_conn)}; ...)` loop of `get_notifs`: pop
each notification, invoke the matching receivers (their exceptions are
contained by `dispatch_receivers`), then invoke the channel's single
handler if one is registered.  The handler call is *not* wrapped in a try
block in the source, so an exception from it aborts the loop and
propagates; notifications not yet popped stay in the transport's queue. -/
def drain_notifs (fb : FormatBehavior) (rs : List (String × notification_receiver))
    (hs : List (String × notification_handler)) : List Notification → drain_out
  | [] => ⟨0, [], [], [], none, []⟩
  | n :: rest =>
    let rd := dispatch_receivers fb (matching_receivers rs n.channel) n.payload n.be_pid
    match find_handler hs n.channel with
    | none =>
      let d := drain_notifs fb rs hs rest
      ⟨d.count + 1, rd.1 ++ d.recv_calls, d.handler_calls, rd.2 ++ d.notices,
       d.exn, d.remaining⟩
    | some h =>
      match h.call n.channel n.payload n.be_pid with
      | .ok =>
        let d := drain_notifs fb rs hs rest
        ⟨d.count + 1, rd.1 ++ d.recv_calls,
         (h.id, n.channel, n.payload, n.be_pid) :: d.handler_calls,
         rd.2 ++ d.notices, d.exn, d.remaining⟩
      | .throwStd w =>
        ⟨1, rd.1, [(h.id, n.channel, n.payload, n.be_pid)], rd.2,
         some (.userException w), rest⟩

/-- Result of one `get_notifs` call: the connection afterwards, the return
value (`count`), the receiver and handler invocations, the notices
produced, and the exception propagating out of the call, if any. -/
structure gn_out where
  conn : connection
  count : Nat
  recv_calls : List (Nat × String × Int)
  handler_calls : List (Nat × String × String × Int)
  notices : List String
  exn : Option ConnErr

/-- `connection::get_notifs`: fail with `broken_connection` if
`consume_input` fails; deliver nothing (returning 0, leaving the buffer
untouched) while a transaction is registered; otherwise drain and dispatch
every buffered notification. -/
def get_notifs (c : connection) : gn_out :=
  if ¬ c.consume_ok then
    ⟨c, 0, [], [], [], some (.brokenConnection "Connection lost.")⟩
  else if c.m_trans.isSome then
    ⟨c, 0, [], [], [], none⟩
  else
    let d := drain_notifs c.format_mode c.m_receivers c.m_notification_handlers c.buffered
    ⟨{ c with buffered := d.remaining }, d.count, d.recv_calls, d.handler_calls,
     d.notices, d.exn⟩

/-- Modelled from the spec: the identifier-quoting escape routine
(`quote_name`, which delegates to libpq's `PQescapeIdentifier` — the
external transport collaborator, whose code is not part of this
repository): wrap the identifier in double quotes, doubling any embedded
double quote. -/
def quote_name (ident : String) : String :=
  "\"" ++ String.mk (ident.data.flatMap (fun ch => if ch = '\"' then ['\"', '\"'] else [ch]))
    ++ "\""

/-- Lexicographic comparison of character sequences, the order of
`std::string::operator<` that keys `std::map`. -/
def chars_lt : List Char → List Char → Bool
  | [], [] => false
  | [], _ :: _ => true
  | _ :: _, [] => false
  | a :: as, b :: bs =>
    if a.toNat < b.toNat then true
    else if b.toNat < a.toNat then false
    else chars_lt as bs

/-- `a < b` on strings (the ordering of `m_notification_handlers`). -/
def str_lt (a b : String) : Bool := chars_lt a.data b.data

/-- Result of a `listen` call: the connection afterwards, the SQL commands
issued on the transport, and the exception propagating out, if any. -/
structure listen_out where
  conn : connection
  cmds : List String
  exn : Option ConnErr

/-- The `exec(cmd).no_rows()` step shared by both issuing branches of
`listen`: the command is executed (its response carrying
`exec_rows cmd` rows), `exec` then drains pending notifications via
`get_notifs`, and finally `no_rows` fails unless the response has zero
rows.  `upd` is the handler-map update performed after a fully successful
call. -/
def listen_exec (c : connection) (cmd : String)
    (upd : List (String × notification_handler)) : listen_out :=
  let g := get_notifs c
  match g.exn with
  | some e => ⟨g.conn, [cmd], some e⟩
  | none =>
    if c.exec_rows cmd ≠ 0 then
      ⟨g.conn, [cmd], some (.failure "Expected query to return no rows.")⟩
    else
      ⟨{ g.conn with m_notification_handlers := upd }, [cmd], none⟩

/-- `connection::listen`: fails with `usage_error` while a transaction is
registered.  Computes `pos = m_notification_handlers.lower_bound(channel)`.
Setting a handler: if `pos` has exactly the channel's key, overwrite the
mapped handler in place; otherwise issue `LISTEN` (quoted channel name),
require a zero-row response, and insert the handler.  Installing an empty
handler: if `pos != end()` — the source does *not* re-check that `pos`'s
key equals the channel here — issue `UNLISTEN` (quoted channel name),
require a zero-row response, and erase the entry at `pos`. -/
def listen (c : connection) (channel : String) (handler : Option notification_handler) :
    listen_out :=
  if c.m_trans.isSome then
    ⟨c, [],
     some (.usageError ("Attempting to listen for notifications on \'" ++ channel
       ++ "\' while transaction is active."))⟩
  else
    let before := c.m_notification_handlers.takeWhile (fun e => str_lt e.1 channel)
    let suffix := c.m_notification_handlers.dropWhile (fun e => str_lt e.1 channel)
    match handler with
    | some h =>
      match suffix with
      | e :: rest =>
        if e.1 = channel then
          ⟨{ c with m_notification_handlers := before ++ (channel, h) :: rest }, [], none⟩
        else
          listen_exec c ("LISTEN " ++ quote_name channel)
            (before ++ (channel, h) :: suffix)
      | [] =>
        listen_exec c ("LISTEN " ++ quote_name channel)
          (before ++ (channel, h) :: suffix)
    | none =>
      match suffix with
      | [] => ⟨c, [], none⟩
      | _ :: rest =>
        listen_exec c ("UNLISTEN " ++ quote_name channel) (before ++ rest)

/-- Modelled from the spec: `pqxx::internal::describe_object` (declared in
`util.hxx`, body in `util.cxx` which is not among the repository's staged
files): describe an object for humans from its class name and optional
object name, interpreting an empty name as "no name given". -/
def describe_object (class_name name : String) : String :=
  if name.isEmpty then class_name
  else class_name ++ " \'" ++ name ++ "\'"

/-- Result of one `close()` call: the connection afterwards, the notice
texts emitted, and whether an exception propagated out of the call. -/
structure close_out where
  conn : connection
  notices : List String
  threw : Bool

/-- `connection::close`: a null transport handle returns immediately.
Otherwise: emit a notice if a transaction is still registered; emit a
notice and clear the receivers if any are registered; unregister all error
handlers; finish the transport connection and null the handle.  The whole
body runs under a catch block whose only action is to null the handle
before re-throwing, so the handle is null on every exit path; we model the
potentially-throwing internal step as occurring at the end of the body,
after the notices. -/
def close (c : connection) : close_out :=
  if ¬ c.m_conn then ⟨c, [], false⟩
  else
    let n1 :=
      match c.m_trans with
      | some t =>
        ["Closing connection while " ++ describe_object "transaction" t.name
          ++ " is still open.\n"]
      | none => []
    let n2 :=
      if c.m_receivers.isEmpty then []
      else ["Closing connection with outstanding receivers.\n"]
    let w := c.m_notice_waiters.map (fun w => { w with errorhandlers := [] })
    ⟨{ c with m_conn := false, m_receivers := [], m_notice_waiters := w },
     n1 ++ n2, c.close_step_throws⟩

/-- `n` successive `close()` calls: the final connection state and the
concatenation of all notices emitted. -/
def close_iter : Nat → connection → connection × List String
  | 0, c => (c, [])
  | Nat.succ m, c =>
    let o := close c
    let r := close_iter m o.conn
    (r.1, o.notices ++ r.2)

/-- Pointer identity of an optional guest. -/
def guest_id : Option transaction_base → Option Nat :=
  Option.map transaction_base.id

/-- Modelled from the spec: `pqxx::internal::check_unique_register`
(declared with its contract in `util.hxx`; the body, in `util.cxx`, is not
among the repository's staged files).  Registering a new guest while the
host already holds a *different* non-null guest fails with a `usage_error`
describing both guests by kind and optional name. -/
def check_unique_register (old : Option transaction_base) (old_class : String)
    (next : Option transaction_base) (new_class : String) : Except ConnErr Unit :=
  match old with
  | none => .ok ()
  | some o =>
    if guest_id (some o) = guest_id next then .ok ()
    else
      .error (.usageError ("Started new "
        ++ describe_object new_class ((next.map transaction_base.name).getD "")
        ++ " while " ++ describe_object old_class o.name ++ " was still active."))

/-- Modelled from the spec: `pqxx::internal::check_unique_unregister`
(declared with its contract in `util.hxx`; the body, in `util.cxx`, is not
among the repository's staged files).  Unregistering a guest that is not
identical (by pointer) to the currently registered one fails with a
descriptive `usage_error`. -/
def check_unique_unregister (old : Option transaction_base) (old_class : String)
    (gone : Option transaction_base) (new_class : String) : Except ConnErr Unit :=
  if guest_id old = guest_id gone then .ok ()
  else
    .error (.usageError ("Expected to close "
      ++ describe_object new_class ((gone.map transaction_base.name).getD "")
      ++ ", but "
      ++ describe_object old_class ((old.map transaction_base.name).getD "")
      ++ " was still open."))

/-- `connection::register_transaction`: check the single-guest slot, then
store the new transaction. -/
def register_transaction (c : connection) (t : transaction_base) :
    Except ConnErr connection :=
  match check_unique_register c.m_trans "transaction" (some t) "transaction" with
  | .error e => .error e
  | .ok _ => .ok { c with m_trans := some t }

/-- `connection::unregister_transaction` (`noexcept`): run the symmetry
check inside a try block whose catch converts the exception's `what()`
text into a notice, then clear the slot unconditionally.  Returns the
connection afterwards and the notices emitted. -/
def unregister_transaction (c : connection) (t : transaction_base) :
    connection × List String :=
  let notices :=
    match check_unique_unregister c.m_trans "transaction" (some t) "transaction" with
    | .error e => [e.message]
    | .ok _ => []
  ({ c with m_trans := none }, notices)

/-- The transport-side inputs the COPY mappings branch on: the transport's
last error text (`PQerrorMessage`) and whether the trailing result object
retrieved after the copy passes `make_result`'s validation. -/
structure copy_env where
  err_msg : String
  trailing_ok : Bool
deriving DecidableEq, Repr

/-- The value `read_copy_line` returns: whether the line buffer is non-null,
and the logical line length. -/
structure copy_line where
  has_buf : Bool
  len : Nat
deriving DecidableEq, Repr

/-- `connection::read_copy_line`, as a function of the return code `n` of
`PQgetCopyData`: `-2` is a transport read error (`failure` with the last
error text); `-1` is end of stream — retrieve and validate the trailing
result, then return a null buffer of length zero; `0` is an `internal_error`
("went asynchronous"); any other value is the size of the fetched line
including its trailing terminator, converted to `std::size_t`, minus one. -/
def read_copy_line (env : copy_env) (n : Int) : Except ConnErr copy_line :=
  if n = -2 then
    .error (.failure ("Reading of table data failed: " ++ env.err_msg))
  else if n = -1 then
    if env.trailing_ok then .ok ⟨false, 0⟩
    else .error (.resultCheckFailed env.err_msg)
  else if n = 0 then
    .error (.internalError "table read inexplicably went asynchronous")
  else
    .ok ⟨true, (if 0 ≤ n then n.toNat else (n + 2 ^ 64).toNat) - 1⟩

/-- `connection::end_copy_write`, as a function of the return code `res` of
`PQputCopyEnd`: `-1` is a `failure` carrying the last error text; `0` is an
`internal_error` ("inexplicably asynchronous"); `1` is normal termination,
after which the trailing result object is retrieved and validated; every
other value — including other negative values — is an `internal_error`
reporting the unexpected code. -/
def end_copy_write (env : copy_env) (res : Int) : Except ConnErr Unit :=
  if res = -1 then
    .error (.failure ("Write to table failed: " ++ env.err_msg))
  else if res = 0 then
    .error (.internalError "table write is inexplicably asynchronous")
  else if res = 1 then
    if env.trailing_ok then .ok ()
    else .error (.resultCheckFailed env.err_msg)
  else
    .error (.internalError ("unexpected result " ++ toString res
      ++ " from PQputCopyEnd()"))

/-- `pqxx::composite_size_buffer` from `composite.hxx`, as a function of
the per-field `size_buffer` estimates: an empty composite needs
`sizeof("()")` bytes; otherwise one byte for the opening parenthesis, three
per field (quotes and separating comma, with the final comma re-used for
the closing parenthesis), twice each field's budget minus its terminating
zero and the escaping thereof, and a terminating zero. -/
def composite_size_buffer (sizes : List Nat) : Nat :=
  match sizes with
  | [] => 3
  | _ => 1 + 3 * sizes.length + (sizes.map (fun s => 2 * s - 2)).sum + 1

/-- The up-front buffer check of `pqxx::composite_into_buf`: writing into a
buffer smaller than the estimate throws `conversion_error` before anything
is written (the successful write itself is delegated to
`write_composite_field`, which lives in `array-composite.hxx`, outside the
staged files). -/
def composite_into_buf (buf_len : Nat) (sizes : List Nat) : Except ConnErr Unit :=
  if buf_len < composite_size_buffer sizes then
    .error (.conversionError "Buffer space may not be enough to represent composite value.")
  else .ok ()

/-! ## Reference values for theorem statements -/

/-- The receiver invocations a poll should produce: for each drained
notification, every receiver registered for its channel, once, in
registration order, with the notification's payload and sender pid. -/
def expected_recv_calls (rs : List (String × notification_receiver))
    (ns : List Notification) : List (Nat × String × Int) :=
  ns.flatMap (fun n =>
    (matching_receivers rs n.channel).map (fun e => (e.2.id, n.payload, n.be_pid)))

/-- The notices a poll should produce: one per receiver invocation that
threw, formatted (or replaced by the fixed fallback text) per the format
behaviour. -/
def expected_recv_notices (fb : FormatBehavior)
    (rs : List (String × notification_receiver)) (ns : List Notification) :
    List String :=
  ns.flatMap (fun n =>
    (matching_receivers rs n.channel).filterMap (fun e =>
      match e.2.call n.payload n.be_pid with
      | Outcome.ok => none
      | Outcome.throwStd w => some (recv_exn_notice fb e.1 w)))

/-- Whether an `Except` outcome is a thrown `pqxx::failure`. -/
def throws_failure : Except ConnErr Unit → Bool
  | .error e => e.isFailure
  | .ok _ => false

/-- A quiescent open connection used as the base of the concrete test
fixtures below. -/
def conn0 : connection where
  m_conn := true
  m_trans := none
  m_receivers := []
  m_notification_handlers := []
  m_notice_waiters := none
  buffered := []
  consume_ok := true
  format_mode := .ok
  exec_rows := fun _ => 0
  close_step_throws := false

/-! ## Claim C1 -/

lemma run_errorhandlers_eq_spec (hs : List errorhandler) (msg : String) :
    run_errorhandlers hs msg = spec_notice_order hs msg := by
  induction hs with
  | nil => simp [run_errorhandlers, spec_notice_order]
  | cons h t ih =>
    cases hc : h.call msg with
    | false =>
      simp [run_errorhandlers, spec_notice_order, hc, List.takeWhile_cons,
        List.dropWhile_cons]
    | true =>
      simp [run_errorhandlers, spec_notice_order, hc, List.takeWhile_cons,
        List.dropWhile_cons]
      simpa [spec_notice_order] using ih

/-- Waiters for the C1 counterexample: a single observer that reports every
notice handled (returns `false`, stopping propagation), plus an installed
free-form notice callback. -/
def c1cex_waiters : notice_waiters :=
  ⟨[⟨0, fun _ => false⟩], true⟩

/-- Claim C1, counterexample.  Observer 0 reports the notice as handled
(its `operator()` returns `false`), yet the installed free-form notice
callback still receives the full text: `process_notice_raw` invokes the
notice callback unconditionally, so the claim's "if and only if no
observer stopped propagation" is false on the code. -/
theorem C1_counterexample :
    ((c1cex_waiters.errorhandlers.map (fun h => h.call "boom")) = [false]) ∧
    (process_notice_raw (some c1cex_waiters) "boom").invoked = [0] ∧
    (process_notice_raw (some c1cex_waiters) "boom").notice_handler_msg = some "boom" :=
  ⟨rfl, rfl, rfl⟩

/-- Claim C1 (amended): for every non-empty notice delivered through the
hub, the observers are invoked in most-recently-registered-first order,
stopping at (but including) the first observer that reports the notice
handled; the single installed free-form notice callback receives the full
text whenever it is installed, regardless of whether an observer stopped
propagation. -/
theorem C1_notice_delivery (w : notice_waiters) (msg : String)
    (hmsg : msg.isEmpty = false) :
    (process_notice_raw (some w) msg).invoked
        = spec_notice_order w.errorhandlers.reverse msg ∧
    (process_notice_raw (some w) msg).notice_handler_msg
        = (if w.notice_handler then some msg else none) := by
  simp [process_notice_raw, hmsg, run_errorhandlers_eq_spec]

/-- Waiters for the C1 witness: registration order 1, 2, 3; observer 3
(most recent) passes the notice on, observer 2 stops it, observer 1 is
never reached. -/
def c1w_waiters : notice_waiters :=
  ⟨[⟨1, fun _ => true⟩, ⟨2, fun _ => false⟩, ⟨3, fun _ => true⟩], true⟩

theorem C1_notice_delivery_witness :
    ("NOTICE: test\n").isEmpty = false ∧
    ((process_notice_raw (some c1w_waiters) "NOTICE: test\n").invoked
        = spec_notice_order c1w_waiters.errorhandlers.reverse "NOTICE: test\n" ∧
      (process_notice_raw (some c1w_waiters) "NOTICE: test\n").notice_handler_msg
        = (if c1w_waiters.notice_handler then some "NOTICE: test\n" else none)) :=
  ⟨rfl, C1_notice_delivery c1w_waiters "NOTICE: test\n" rfl⟩

/-! ## Claim C2 -/

lemma dispatch_receivers_spec (fb : FormatBehavior)
    (rs : List (String × notification_receiver)) (payload : String) (pid : Int) :
    (dispatch_receivers fb rs payload pid).1 = rs.map (fun e => (e.2.id, payload, pid)) ∧
    (dispatch_receivers fb rs payload pid).2 = rs.filterMap (fun e =>
      match e.2.call payload pid with
      | Outcome.ok => none
      | Outcome.throwStd w => some (recv_exn_notice fb e.1 w)) := by
  induction rs with
  | nil => simp [dispatch_receivers]
  | cons e rest ih =>
    obtain ⟨ch, r⟩ := e
    cases hc : r.call payload pid <;>
      simp [dispatch_receivers, hc, ih.1, ih.2, List.filterMap_cons]

lemma drain_notifs_clean (fb : FormatBehavior)
    (rs : List (String × notification_receiver))
    (hs : List (String × notification_handler))
    (hok : ∀ p ∈ hs, ∀ ch pay pid, (p.2).call ch pay pid = Outcome.ok)
    (ns : List Notification) :
    (drain_notifs fb rs hs ns).exn = none ∧
    (drain_notifs fb rs hs ns).recv_calls = expected_recv_calls rs ns ∧
    (drain_notifs fb rs hs ns).notices = expected_recv_notices fb rs ns ∧
    (drain_notifs fb rs hs ns).count = ns.length ∧
    (drain_notifs fb rs hs ns).remaining = [] := by
  induction ns with
  | nil => simp [drain_notifs, expected_recv_calls, expected_recv_notices]
  | cons n rest ih =>
    have hd := dispatch_receivers_spec fb (matching_receivers rs n.channel)
      n.payload n.be_pid
    cases hf : find_handler hs n.channel with
    | none =>
      simp [drain_notifs, hf, expected_recv_calls, expected_recv_notices,
        List.flatMap_cons, ih.1, ih.2.1, ih.2.2.1, ih.2.2.2.1, ih.2.2.2.2,
        hd.1, hd.2, expected_recv_calls, expected_recv_notices]
    | some h =>
      have hcall : ∀ ch pay pid, h.call ch pay pid = Outcome.ok := by
        unfold find_handler at hf
        cases hfe : hs.find? (fun e => e.1 = n.channel) with
        | none => rw [hfe] at hf; simp at hf
        | some e =>
          rw [hfe] at hf
          obtain rfl : e.2 = h := by simpa using hf
          exact hok e (List.mem_of_find?_eq_some hfe)
      simp [drain_notifs, hf, hcall, expected_recv_calls, expected_recv_notices,
        List.flatMap_cons, ih.1, ih.2.1, ih.2.2.1, ih.2.2.2.1, ih.2.2.2.2,
        hd.1, hd.2]

/-- Fixture for the C2 counterexample: no transaction registered, one
buffered notification for channel "updates" with payload "42", and a
channel handler that throws. -/
def c2cex_conn : connection :=
  { conn0 with
    m_notification_handlers := [("updates", ⟨1, fun _ _ _ => .throwStd "boom"⟩)],
    buffered := [⟨"updates", "42", 7⟩] }

/-- Claim C2, counterexample.  The channel-handler invocation in
`get_notifs` is not inside a try block: an exception thrown by the
registered handler for "updates" propagates out of the polling call
(modelled by the non-`none` `exn` field), refuting "no exception from an
observer or handler ever propagates out of the polling call". -/
theorem C2_counterexample :
    (get_notifs c2cex_conn).exn = some (ConnErr.userException "boom") ∧
    (get_notifs c2cex_conn).handler_calls = [(1, "updates", "42", 7)] :=
  ⟨rfl, rfl⟩

/-- Claim C2 (amended): in a poll with no transaction registered, an
exception thrown by a legacy notification receiver (observer) is caught
inside the dispatch loop and converted to a notice (with the fixed
fallback texts if formatting the notice itself throws), and every observer
registered for a drained notification's channel is invoked exactly once
with that notification's payload even if another observer throws; but an
exception thrown by a channel *handler* (registered through `listen`) is
not caught and propagates out of the polling call.  Provided no handler
throws, no exception propagates. -/
theorem C2_receiver_exception_containment (c : connection)
    (h1 : c.consume_ok = true) (h2 : c.m_trans = none)
    (h3 : ∀ p ∈ c.m_notification_handlers, ∀ ch pay pid,
        (p.2).call ch pay pid = Outcome.ok) :
    (get_notifs c).exn = none ∧
    (get_notifs c).recv_calls = expected_recv_calls c.m_receivers c.buffered ∧
    (get_notifs c).notices
        = expected_recv_notices c.format_mode c.m_receivers c.buffered ∧
    (get_notifs c).count = c.buffered.length := by
  have hd := drain_notifs_clean c.format_mode c.m_receivers
    c.m_notification_handlers h3 c.buffered
  refine ⟨?_, ?_, ?_, ?_⟩ <;>
    simp [get_notifs, h1, h2, hd.1, hd.2.1, hd.2.2.1, hd.2.2.2.1]

/-- Fixture for the C2 witness: two receivers on "updates", the first of
which throws; no channel handlers; one buffered notification. -/
def c2w_conn : connection :=
  { conn0 with
    m_receivers := [("updates", ⟨10, fun _ _ => .throwStd "bang"⟩),
                    ("updates", ⟨11, fun _ _ => .ok⟩)],
    buffered := [⟨"updates", "42", 7⟩] }

theorem C2_receiver_exception_containment_witness :
    c2w_conn.consume_ok = true ∧ c2w_conn.m_trans = none ∧
    (∀ p ∈ c2w_conn.m_notification_handlers, ∀ ch pay pid,
        (p.2).call ch pay pid = Outcome.ok) ∧
    ((get_notifs c2w_conn).exn = none ∧
      (get_notifs c2w_conn).recv_calls
        = expected_recv_calls c2w_conn.m_receivers c2w_conn.buffered ∧
      (get_notifs c2w_conn).notices
        = expected_recv_notices c2w_conn.format_mode c2w_conn.m_receivers
            c2w_conn.buffered ∧
      (get_notifs c2w_conn).count = c2w_conn.buffered.length) :=
  ⟨rfl, rfl, by simp [c2w_conn, conn0],
   C2_receiver_exception_containment c2w_conn rfl rfl (by simp [c2w_conn, conn0])⟩

/-! ## Claim C3 -/

lemma close_of_not_open (c : connection) (h : c.m_conn = false) :
    close c = ⟨c, [], false⟩ := by
  simp [close, h]

lemma close_conn_not_open (c : connection) : ((close c).conn).m_conn = false := by
  by_cases h : c.m_conn <;> simp [close, h]

lemma close_iter_succ_eq (k : Nat) :
    ∀ c : connection, close_iter (k + 1) c = ((close c).conn, (close c).notices) := by
  induction k with
  | zero =>
    intro c
    simp [close_iter]
  | succ m ih =>
    intro c
    have hstep : close_iter (m + 1 + 1) c
        = ((close_iter (m + 1) (close c).conn).1,
           (close c).notices ++ (close_iter (m + 1) (close c).conn).2) := rfl
    rw [hstep, ih ((close c).conn),
      close_of_not_open ((close c).conn) (close_conn_not_open c)]
    simp

lemma close_iter_of_pos (c : connection) (n : Nat) (h : 1 ≤ n) :
    close_iter n c = ((close c).conn, (close c).notices) := by
  obtain ⟨k, rfl⟩ : ∃ k, n = k + 1 := ⟨n - 1, by omega⟩
  exact close_iter_succ_eq k c

/-- Claim C3: `close()` is idempotent.  Closing a connection whose handle
is already null is a no-op (no state change, no notices, no exception);
every `close()` leaves the handle null; if an internal step of the close
body throws, the exception propagates only after the handle has been
nulled; and `n ≥ 1` successive `close()` calls produce exactly the state
and notices of the first one. -/
theorem C3_close_idempotent :
    (∀ c : connection, c.m_conn = false → close c = ⟨c, [], false⟩) ∧
    (∀ c : connection, ((close c).conn).m_conn = false) ∧
    (∀ c : connection, c.close_step_throws = true → c.m_conn = true →
        (close c).threw = true ∧ ((close c).conn).m_conn = false) ∧
    (∀ (c : connection) (n : Nat), 1 ≤ n →
        close_iter n c = ((close c).conn, (close c).notices)) := by
  refine ⟨close_of_not_open, close_conn_not_open, ?_, close_iter_of_pos⟩
  intro c ht hc
  simp [close, hc, ht]

/-- Fixture for the C3 witness: an open connection with a registered
transaction and a registered receiver, so that the first close emits
notices. -/
def c3w_conn : connection :=
  { conn0 with
    m_trans := some ⟨1, "tx1"⟩,
    m_receivers := [("updates", ⟨10, fun _ _ => .ok⟩)] }

/-- Fixture for the C3 witness, throwing variant: an internal step of
`close()` throws. -/
def c3t_conn : connection :=
  { conn0 with close_step_throws := true }

theorem C3_close_idempotent_witness :
    ((1:Nat) ≤ 3 ∧
      close_iter 3 c3w_conn = ((close c3w_conn).conn, (close c3w_conn).notices)) ∧
    (c3t_conn.close_step_throws = true ∧ c3t_conn.m_conn = true ∧
      ((close c3t_conn).threw = true ∧ ((close c3t_conn).conn).m_conn = false)) :=
  ⟨⟨by decide, C3_close_idempotent.2.2.2 c3w_conn 3 (by decide)⟩,
   ⟨rfl, rfl, C3_close_idempotent.2.2.1 c3t_conn rfl rfl⟩⟩

/-! ## Claim C4 -/

/-- Fixture for the C4 code bug: one handler registered, for channel
"beta"; channel "alpha" is not watched. -/
def c4_conn : connection :=
  { conn0 with m_notification_handlers := [("beta", ⟨5, fun _ _ _ => .ok⟩)] }

/-- Claim C4, code bug.  Installing an empty handler for the *unwatched*
channel "alpha" while only "beta" is watched should be a no-op (per the
spec and the source's own comment "Yes, we had a handler for this name"),
but the empty-handler branch of `listen` checks only
`pos != handlers_end` after `lower_bound`, without re-checking that the
key at `pos` equals the channel: the call issues `UNLISTEN "alpha"` and
erases the handler registered for "beta". -/
theorem C4_listen_unwatched_unlisten_bug :
    (listen c4_conn "alpha" none).cmds = ["UNLISTEN \"alpha\""] ∧
    (listen c4_conn "alpha" none).conn.m_notification_handlers = [] ∧
    (listen c4_conn "alpha" none).exn = none :=
  ⟨by rfl, by rfl, by rfl⟩

/-! ## Claim C5 -/

/-- Claim C5: transaction registration.  `register_transaction` fails with
a `usage_error` describing both guests when a different transaction is
already registered, and stores the transaction otherwise;
`unregister_transaction` of a non-matching transaction returns normally
(no exception), surfaces the mismatch as a notice, and still clears the
slot; unregistering the matching transaction clears the slot with no
notice. -/
theorem C5_transaction_registration :
    (∀ (c : connection) (t old : transaction_base),
        c.m_trans = some old → old.id ≠ t.id →
        register_transaction c t = .error (.usageError ("Started new "
          ++ describe_object "transaction" t.name ++ " while "
          ++ describe_object "transaction" old.name ++ " was still active."))) ∧
    (∀ (c : connection) (t : transaction_base), c.m_trans = none →
        register_transaction c t = .ok { c with m_trans := some t }) ∧
    (∀ (c : connection) (t : transaction_base), guest_id c.m_trans = some t.id →
        unregister_transaction c t = ({ c with m_trans := none }, [])) ∧
    (∀ (c : connection) (t : transaction_base), guest_id c.m_trans ≠ some t.id →
        unregister_transaction c t = ({ c with m_trans := none },
          ["Expected to close " ++ describe_object "transaction" t.name
            ++ ", but "
            ++ describe_object "transaction"
                ((c.m_trans.map transaction_base.name).getD "")
            ++ " was still open."])) := by
  refine ⟨?_, ?_, ?_, ?_⟩
  · intro c t old hold hne
    simp [register_transaction, check_unique_register, hold, guest_id, hne,
      ConnErr.message]
  · intro c t hnone
    simp [register_transaction, check_unique_register, hnone]
  · intro c t hmatch
    simp only [guest_id] at hmatch
    simp [unregister_transaction, check_unique_unregister, guest_id, hmatch]
  · intro c t hne
    simp only [guest_id] at hne
    simp [unregister_transaction, check_unique_unregister, guest_id, hne,
      ConnErr.message]

/-- Fixture for the C5 witness: a connection with transaction 1 ("tx1")
registered. -/
def c5_conn : connection :=
  { conn0 with m_trans := some ⟨1, "tx1"⟩ }

theorem C5_transaction_registration_witness :
    (c5_conn.m_trans = some ⟨1, "tx1"⟩ ∧ (1:Nat) ≠ 2 ∧
      register_transaction c5_conn ⟨2, "tx2"⟩
        = .error (.usageError ("Started new "
            ++ describe_object "transaction" "tx2" ++ " while "
            ++ describe_object "transaction" "tx1" ++ " was still active."))) ∧
    (guest_id c5_conn.m_trans = some 1 ∧
      unregister_transaction c5_conn ⟨1, "tx1"⟩
        = ({ c5_conn with m_trans := none }, [])) ∧
    (guest_id c5_conn.m_trans ≠ some 3 ∧
      unregister_transaction c5_conn ⟨3, "tx3"⟩
        = ({ c5_conn with m_trans := none },
           ["Expected to close " ++ describe_object "transaction" "tx3"
             ++ ", but "
             ++ describe_object "transaction"
                 ((c5_conn.m_trans.map transaction_base.name).getD "")
             ++ " was still open."])) :=
  ⟨⟨rfl, by decide,
     C5_transaction_registration.1 c5_conn ⟨2, "tx2"⟩ ⟨1, "tx1"⟩ rfl (by decide)⟩,
   ⟨rfl, C5_transaction_registration.2.2.1 c5_conn ⟨1, "tx1"⟩ rfl⟩,
   ⟨by decide, C5_transaction_registration.2.2.2 c5_conn ⟨3, "tx3"⟩ (by decide)⟩⟩

/-! ## Claim C6 -/

/-- Claim C6: while a transaction is registered, a poll delivers nothing:
`get_notifs` returns 0, invokes no receiver and no handler, emits no
notice, throws nothing, and leaves the connection — in particular the
buffered notifications — untouched, deferring them rather than dropping
them. -/
theorem C6_no_delivery_during_transaction (c : connection) (t : transaction_base)
    (h1 : c.consume_ok = true) (h2 : c.m_trans = some t) :
    get_notifs c = ⟨c, 0, [], [], [], none⟩ := by
  simp [get_notifs, h1, h2]

/-- Fixture for the C6 witness: a transaction is registered and a
notification for a watched channel is buffered. -/
def c6_conn : connection :=
  { conn0 with
    m_trans := some ⟨4, "tx"⟩,
    m_notification_handlers := [("updates", ⟨1, fun _ _ _ => .ok⟩)],
    buffered := [⟨"updates", "42", 7⟩] }

theorem C6_no_delivery_during_transaction_witness :
    c6_conn.consume_ok = true ∧ c6_conn.m_trans = some ⟨4, "tx"⟩ ∧
    get_notifs c6_conn = ⟨c6_conn, 0, [], [], [], none⟩ :=
  ⟨rfl, rfl, C6_no_delivery_during_transaction c6_conn ⟨4, "tx"⟩ rfl rfl⟩

/-! ## Claim C7 -/

/-- Transport environment for the copy witnesses and counterexample. -/
def c7_env : copy_env := ⟨"server went away", true⟩

/-- Claim C7, counterexample.  The claim maps *any* negative return code of
the end-of-copy call to `Failure`, but the source switches on the exact
value: `-2` falls into the default branch and raises `internal_error`
("unexpected result -2 from PQputCopyEnd()"), not a `failure`. -/
theorem C7_counterexample :
    end_copy_write c7_env (-2)
      = .error (.internalError "unexpected result -2 from PQputCopyEnd()") ∧
    throws_failure (end_copy_write c7_env (-2)) = false :=
  ⟨by rfl, by rfl⟩

/-- Claim C7 (amended): `end_copy_write` maps the return code of
`PQputCopyEnd` as follows: exactly `-1` fails with `Failure` carrying the
transport's last error text; `0` fails with `InternalError` (asynchronous
violation); `1` proceeds normally and then retrieves and validates the
trailing result object (failing only if that validation fails); and any
other value — including negative values other than `-1` — fails with
`InternalError` reporting the unexpected value. -/
theorem C7_end_copy_write_mapping :
    (∀ env : copy_env, end_copy_write env (-1)
        = .error (.failure ("Write to table failed: " ++ env.err_msg))) ∧
    (∀ env : copy_env, end_copy_write env 0
        = .error (.internalError "table write is inexplicably asynchronous")) ∧
    (∀ env : copy_env, env.trailing_ok = true → end_copy_write env 1 = .ok ()) ∧
    (∀ env : copy_env, env.trailing_ok = false →
        end_copy_write env 1 = .error (.resultCheckFailed env.err_msg)) ∧
    (∀ (env : copy_env) (r : Int), r ≠ -1 → r ≠ 0 → r ≠ 1 →
        end_copy_write env r = .error (.internalError ("unexpected result "
          ++ toString r ++ " from PQputCopyEnd()"))) := by
  refine ⟨?_, ?_, ?_, ?_, ?_⟩
  · intro env; simp [end_copy_write]
  · intro env; simp [end_copy_write]
  · intro env h; simp [end_copy_write, h]
  · intro env h; simp [end_copy_write, h]
  · intro env r h1 h2 h3; simp [end_copy_write, h1, h2, h3]

theorem C7_end_copy_write_mapping_witness :
    (c7_env.trailing_ok = true ∧ end_copy_write c7_env 1 = .ok ()) ∧
    ((2:Int) ≠ -1 ∧ (2:Int) ≠ 0 ∧ (2:Int) ≠ 1 ∧
      end_copy_write c7_env 2 = .error (.internalError ("unexpected result "
        ++ toString (2:Int) ++ " from PQputCopyEnd()"))) :=
  ⟨⟨rfl, C7_end_copy_write_mapping.2.2.1 c7_env rfl⟩,
   ⟨by decide, by decide, by decide,
    C7_end_copy_write_mapping.2.2.2.2 c7_env 2 (by decide) (by decide) (by decide)⟩⟩

/-! ## Claim C8 -/

/-- Claim C8: `read_copy_line` maps the return code of `PQgetCopyData` as
follows: `-2` fails with `Failure` including the transport's last error
text; `-1` retrieves and validates the trailing result object (failing
only if that validation fails) and then returns the null, zero-length line
sentinel; `0` fails with `InternalError` ("unexpectedly asynchronous");
and any positive `n` succeeds with logical line length `n - 1`, excluding
the trailing terminator byte. -/
theorem C8_read_copy_line_mapping :
    (∀ env : copy_env, read_copy_line env (-2)
        = .error (.failure ("Reading of table data failed: " ++ env.err_msg))) ∧
    (∀ env : copy_env, env.trailing_ok = true →
        read_copy_line env (-1) = .ok ⟨false, 0⟩) ∧
    (∀ env : copy_env, env.trailing_ok = false →
        read_copy_line env (-1) = .error (.resultCheckFailed env.err_msg)) ∧
    (∀ env : copy_env, read_copy_line env 0
        = .error (.internalError "table read inexplicably went asynchronous")) ∧
    (∀ (env : copy_env) (n : Int), 0 < n →
        read_copy_line env n = .ok ⟨true, n.toNat - 1⟩) := by
  refine ⟨?_, ?_, ?_, ?_, ?_⟩
  · intro env; simp [read_copy_line]
  · intro env h; simp [read_copy_line, h]
  · intro env h; simp [read_copy_line, h]
  · intro env; simp [read_copy_line]
  · intro env n h
    have h2 : n ≠ -2 := by omega
    have h1 : n ≠ -1 := by omega
    have h0 : n ≠ 0 := by omega
    have hle : 0 ≤ n := le_of_lt h
    simp [read_copy_line, h2, h1, h0, hle]

theorem C8_read_copy_line_mapping_witness :
    (c7_env.trailing_ok = true ∧ read_copy_line c7_env (-1) = .ok ⟨false, 0⟩) ∧
    ((0:Int) < 6 ∧ read_copy_line c7_env 6 = .ok ⟨true, (6:Int).toNat - 1⟩) :=
  ⟨⟨rfl, C8_read_copy_line_mapping.2.1 c7_env rfl⟩,
   ⟨by decide, C8_read_copy_line_mapping.2.2.2.2 c7_env 6 (by decide)⟩⟩

/-! ## Claim C9 -/

lemma comp_sum (sizes : List Nat) (h : ∀ s ∈ sizes, 1 ≤ s) :
    (sizes.map (fun s => 2 * s - 2)).sum + 3 * sizes.length
      = (sizes.map (fun s => (2 * s - 1) + 2)).sum := by
  induction sizes with
  | nil => simp
  | cons a t ih =>
    have ha : 1 ≤ a := h a (List.mem_cons_self a t)
    have ht := ih (fun s hs => h s (List.mem_cons_of_mem a hs))
    simp only [List.map_cons, List.sum_cons, List.length_cons]
    omega

/-- Claim C9: for a non-empty tuple of fields (each field's own size
estimate being at least one byte, for its terminating zero), the composite
buffer-size estimate charges each field twice its own estimate minus one
— worst-case backslash escaping, discounting the field's terminator — plus
a fixed two-byte per-field delimiter overhead and a fixed two-byte
per-value overhead; and `composite_into_buf` throws `conversion_error`
exactly when the supplied buffer is smaller than the estimate, before
writing anything. -/
theorem C9_composite_size_contract :
    (∀ sizes : List Nat, sizes ≠ [] → (∀ s ∈ sizes, 1 ≤ s) →
        composite_size_buffer sizes
          = 2 + (sizes.map (fun s => (2 * s - 1) + 2)).sum) ∧
    (∀ (buf_len : Nat) (sizes : List Nat),
        composite_into_buf buf_len sizes
          = .error (.conversionError
              "Buffer space may not be enough to represent composite value.")
          ↔ buf_len < composite_size_buffer sizes) := by
  constructor
  · intro sizes hne hs
    cases sizes with
    | nil => exact absurd rfl hne
    | cons a t =>
      have := comp_sum (a :: t) hs
      simp only [composite_size_buffer]
      omega
  · intro buf_len sizes
    unfold composite_into_buf
    split <;> simp [*]

theorem C9_composite_size_contract_witness :
    (([1, 3] : List Nat) ≠ [] ∧ (∀ s ∈ ([1, 3] : List Nat), 1 ≤ s) ∧
      composite_size_buffer [1, 3]
        = 2 + (([1, 3] : List Nat).map (fun s => (2 * s - 1) + 2)).sum) ∧
    (composite_into_buf 5 [1, 3]
        = .error (.conversionError
            "Buffer space may not be enough to represent composite value.")
      ↔ 5 < composite_size_buffer [1, 3]) :=
  ⟨⟨by decide, by decide,
    C9_composite_size_contract.1 [1, 3] (by decide) (by decide)⟩,
   C9_composite_size_contract.2 5 [1, 3]⟩

/-! ## Claim C10 -/

/-- Claim C10: after `unregister_transaction` returns, the
registered-transaction slot is null, even when the argument does not match
the registered transaction — the mismatch only produces a notice, and the
slot is cleared unconditionally. -/
theorem C10_unregister_clears_slot (c : connection) (t : transaction_base) :
    (unregister_transaction c t).1.m_trans = none := by
  simp [unregister_transaction]

end Pqxx
